import Mathlib

/-!
Shallow embedding of the `tins` CLI (temporary OpenStack instances).

The remote provider (OpenStack) and the local filesystem are the two
effectful collaborators.  They are modelled as oracles: a `Client` record
holds, for every remote call the orchestration code can make, the result
that call would return; the local key files are modelled by an explicit
`FS` state.  Each workflow function is translated from the Go source and
returns, besides its `Except` result, the list of side-effecting actions
it attempted (`trace`) and the warnings it printed, so that claims about
"is attempted", "is skipped" and "only warned" are statable.
-/

namespace Tins

/-- `InstanceNamePrefix = "tins-"`, from the root command file. -/
def InstanceNamePrefix : String := "tins-"

/-- `TempInstanceTag = "tins"`, the metadata key marking managed instances. -/
def TempInstanceTag : String := "tins"

/-- Go `strings.HasPrefix(s, p)`, written as the Go checks spell it:
the first `len(p)` units of `s` equal `p` (chars here, bytes in Go -- the
two agree on UTF-8 text for an ASCII prefix). -/
def hasPrefix (s p : String) : Bool := s.take p.length == p

/-- Go `strings.TrimPrefix`: drop `p` when it is a prefix, else unchanged. -/
def trimPrefix (s p : String) : String :=
  if hasPrefix s p then s.drop p.length else s

/-- One entry of a server's address list.  In the Go code each entry is a
dynamic `map[string]interface{}`; a field is `none` when the key is absent
or its value is not a string (both cases are skipped identically). -/
structure AddrEntry where
  ipType : Option String
  addr : Option String
  deriving DecidableEq, Repr

/-- The slice of `servers.Server` the repository reads: id, name, status,
metadata (`none` models a nil Go map) and the per-network address lists. -/
structure Server where
  id : String
  name : String
  status : String
  metadata : Option (List (String × String))
  addresses : List (String × List AddrEntry)
  deriving DecidableEq, Repr

/-- Side-effecting calls the workflows attempt, recorded in traces. -/
inductive Action where
  | findImage
  | findFlavor
  | findNetwork
  | createKeypair (name : String)
  | createServer (name : String)
  | genSSHKey (name : String)
  | deleteSSHKey (name : String)
  | deleteInstance (id : String)
  | deleteKeypair (name : String)
  | waitActive (id : String)
  | getInstance (id : String)
  deriving DecidableEq, Repr

instance instDecEqExcept {ε α : Type} [DecidableEq ε] [DecidableEq α] :
    DecidableEq (Except ε α) := fun x y =>
  match x, y with
  | .ok a, .ok b =>
    if h : a = b then .isTrue (by rw [h]) else .isFalse (by simp [h])
  | .error a, .error b =>
    if h : a = b then .isTrue (by rw [h]) else .isFalse (by simp [h])
  | .ok _, .error _ => .isFalse (by simp)
  | .error _, .ok _ => .isFalse (by simp)

/-- Result of a whole CLI command: its returned error (RunE), the actions
it attempted, and the warnings it printed instead of failing. -/
structure CmdResult where
  result : Except String Unit
  trace : List Action
  warnings : List String
  deriving DecidableEq, Repr

/-- Oracles for the effectful collaborators: for each call the
orchestration code can make, the result that call returns.  Remote calls
are stateless within one command in this model; `poll` gives the server
returned by the k-th status poll of `WaitForInstanceActive`. -/
structure Client where
  findImage : Except String String
  findFlavor : Except String String
  findNetwork : Except String String
  createKeypair : String → String → Except String Unit
  createServer : String → Except String Server
  rawServers : Except String (List Server)
  getServer : String → Except String Server
  deleteServer : String → Except String Unit
  delKeypair : String → Except String Unit
  generateKey : String → Except String String
  deleteLocalKey : String → Except String Unit
  poll : String → Nat → Except String Server

/-- The filter of `OpenStackClient.ListInstances`: managed iff the `tins`
metadata value is `"true"`, or the name carries the `tins-` prefix (the Go
byte-slice comparison equals `startsWith` for this ASCII prefix). -/
def isManaged (s : Server) : Bool :=
  (match s.metadata with
   | some m =>
     match m.lookup TempInstanceTag with
     | some v => v == "true"
     | none => false
   | none => false)
  || hasPrefix s.name InstanceNamePrefix

/-- `OpenStackClient.ListInstances`: list all servers, keep the managed ones. -/
def listInstances (c : Client) : Except String (List Server) :=
  match c.rawServers with
  | .error e => .error ("failed to list servers: " ++ e)
  | .ok all => .ok (all.filter isManaged)

/-- Inner loop of `extractIPAddress` over one network's entry list:
an entry typed `"fixed"` or `"floating"` with an address returns it; an
entry with a type field of any other value is skipped; an entry without a
type field but with an address returns it at once. -/
def pickAddr : List AddrEntry → Option String
  | [] => none
  | e :: rest =>
    match e.ipType with
    | some t =>
      if t == "fixed" || t == "floating" then
        match e.addr with
        | some a => some a
        | none => pickAddr rest
      else pickAddr rest
    | none =>
      match e.addr with
      | some a => some a
      | none => pickAddr rest

/-- Outer loop of `extractIPAddress` over the networks, in iteration order. -/
def findAddr : List (String × List AddrEntry) → Option String
  | [] => none
  | (_, entries) :: rest =>
    match pickAddr entries with
    | some a => some a
    | none => findAddr rest

/-- `extractIPAddress` from connect.go. -/
def extractIPAddress (s : Server) : Except String String :=
  if s.addresses.isEmpty then .error "no IP addresses found"
  else
    match findAddr s.addresses with
    | some a => .ok a
    | none => .error "no valid IP address found"

/-- `OpenStackClient.CreateInstance`: resolve image, flavor and network
names to IDs, then (when a public key was supplied) register the remote
keypair under the instance name, then create the server.  The resolved IDs
only feed the server-creation request, which the `createServer` oracle
stands for.  The trace records each remote call in program order; no
branch ever issues a keypair deletion. -/
def CreateInstance (c : Client) (instanceName publicKey : String) :
    Except String Server × List Action :=
  match c.findImage with
  | .error e => (.error e, [.findImage])
  | .ok _imageID =>
    match c.findFlavor with
    | .error e => (.error e, [.findImage, .findFlavor])
    | .ok _flavorID =>
      match c.findNetwork with
      | .error e => (.error e, [.findImage, .findFlavor, .findNetwork])
      | .ok _networkID =>
        let pre : List Action := [.findImage, .findFlavor, .findNetwork]
        if publicKey == "" then
          match c.createServer instanceName with
          | .error e =>
            (.error ("failed to create server: " ++ e),
             pre ++ [.createServer instanceName])
          | .ok server => (.ok server, pre ++ [.createServer instanceName])
        else
          match c.createKeypair instanceName publicKey with
          | .error e =>
            (.error ("failed to create keypair: " ++ e),
             pre ++ [.createKeypair instanceName])
          | .ok _ =>
            match c.createServer instanceName with
            | .error e =>
              (.error ("failed to create server: " ++ e),
               pre ++ [.createKeypair instanceName, .createServer instanceName])
            | .ok server =>
              (.ok server,
               pre ++ [.createKeypair instanceName, .createServer instanceName])

/-- Outcome of `WaitForInstanceActive`.  `stuck` is the recursion-fuel
marker and is proved unreachable for the fuel the wrapper supplies. -/
inductive WaitResult where
  | ok
  | errState
  | getErr (e : String)
  | timeout
  | stuck
  deriving DecidableEq, Repr

/-- The polling loop of `WaitForInstanceActive`.  The k-th tick of the 5s
ticker fires `5*(k+1)` seconds after the start, so the Go check
`time.Now().After(deadline)` at tick `k` reads `5*(k+1) > timeoutSecs`;
the status is inspected before the deadline, exactly as in the source. -/
def waitGo (get : Nat → Except String Server) (timeoutSecs : Nat) :
    Nat → Nat → WaitResult
  | _, 0 => .stuck
  | k, fuel + 1 =>
    match get k with
    | .error e => .getErr e
    | .ok server =>
      if server.status == "ACTIVE" then .ok
      else if server.status == "ERROR" then .errState
      else if 5 * (k + 1) > timeoutSecs then .timeout
      else waitGo get timeoutSecs (k + 1) fuel

/-- `OpenStackClient.WaitForInstanceActive`, with fuel covering every tick
up to and including the first one past the deadline. -/
def WaitForInstanceActive (get : Nat → Except String Server)
    (timeoutSecs : Nat) : WaitResult :=
  waitGo get timeoutSecs 0 (timeoutSecs / 5 + 1)

/-- The create command (`createCmd.RunE`) after the name was fixed:
generate the local key pair; create the instance; on creation failure
delete the local key pair best-effort (a cleanup failure is only a
warning) and return the creation error; on success wait for ACTIVE with a
5-minute (300s) timeout, downgrading any wait failure to a warning, then
re-fetch the instance for address reporting and return success. -/
def createCmd (c : Client) (instanceName : String) : CmdResult :=
  let fullInstanceName := InstanceNamePrefix ++ instanceName
  match c.generateKey instanceName with
  | .error e =>
    { result := .error ("failed to generate SSH key: " ++ e)
      trace := [.genSSHKey instanceName]
      warnings := [] }
  | .ok publicKey =>
    match CreateInstance c fullInstanceName publicKey with
    | (.error e, tr) =>
      let ws :=
        match c.deleteLocalKey instanceName with
        | .error de => ["Warning: Failed to clean up SSH key: " ++ de]
        | .ok _ => []
      { result := .error ("failed to create instance: " ++ e)
        trace := .genSSHKey instanceName :: tr ++ [.deleteSSHKey instanceName]
        warnings := ws }
    | (.ok server, tr) =>
      let ws :=
        match WaitForInstanceActive (c.poll server.id) 300 with
        | .ok => []
        | _ => ["Warning: Instance may not be ready yet"]
      { result := .ok ()
        trace := .genSSHKey instanceName :: tr
                   ++ [.waitActive server.id, .getInstance server.id]
        warnings := ws }

/-- Identifier resolution of the single-target terminate command
(terminate.go lines 52-110): a prefixed identifier is matched against the
managed list by exact name, with no further fallback; an unprefixed one is
first matched as a short name and then, if unmatched, fetched as a raw
provider ID.  On success: (serverID, instanceName, fullInstanceName). -/
def terminateResolve (c : Client) (ident : String) :
    Except String (String × String × String) :=
  if hasPrefix ident InstanceNamePrefix then
    match listInstances c with
    | .error e => .error ("failed to list instances: " ++ e)
    | .ok servers =>
      match servers.find? (fun s => s.name == ident) with
      | some s => .ok (s.id, ident.drop InstanceNamePrefix.length, ident)
      | none => .error ("instance " ++ ident ++ " not found")
  else
    let fullName := InstanceNamePrefix ++ ident
    match listInstances c with
    | .error e => .error ("failed to list instances: " ++ e)
    | .ok servers =>
      match servers.find? (fun s => s.name == fullName) with
      | some s => .ok (s.id, ident, s.name)
      | none =>
        match c.getServer ident with
        | .error e => .error ("failed to get instance: " ++ e)
        | .ok server =>
          .ok (ident, trimPrefix server.name InstanceNamePrefix, server.name)

/-- The single-target terminate command (`terminateCmd.RunE`): resolve,
delete the instance (a failure here aborts, skipping both cleanups), then
best-effort delete the remote keypair and the local keys, each failure
downgraded to a warning; the command then returns success. -/
def terminateCmd (c : Client) (ident : String) : CmdResult :=
  match terminateResolve c ident with
  | .error e => { result := .error e, trace := [], warnings := [] }
  | .ok (serverID, instanceName, fullInstanceName) =>
    match c.deleteServer serverID with
    | .error e =>
      { result := .error ("failed to delete instance: " ++ e)
        trace := [.deleteInstance serverID]
        warnings := [] }
    | .ok _ =>
      let kp : List Action × List String :=
        if fullInstanceName == "" then
          ([], ["Warning: Could not determine instance name, skipping OpenStack keypair cleanup"])
        else
          match c.delKeypair fullInstanceName with
          | .error e =>
            ([.deleteKeypair fullInstanceName],
             ["Warning: Failed to delete OpenStack keypair (it may not exist): " ++ e])
          | .ok _ => ([.deleteKeypair fullInstanceName], [])
      let lk : List Action × List String :=
        if instanceName == "" then
          ([], ["Warning: Could not determine instance name, skipping local SSH key cleanup"])
        else
          match c.deleteLocalKey instanceName with
          | .error e =>
            ([.deleteSSHKey instanceName],
             ["Warning: Failed to delete local SSH keys (they may not exist): " ++ e])
          | .ok _ => ([.deleteSSHKey instanceName], [])
      { result := .ok ()
        trace := .deleteInstance serverID :: kp.1 ++ lk.1
        warnings := kp.2 ++ lk.2 }

/-- One iteration of the terminate-all loop: delete the instance (on
failure log and move on, skipping this instance's cleanups), then
best-effort delete the remote keypair and the local keys. -/
def terminateOne (c : Client) (server : Server) : List Action × List String :=
  match c.deleteServer server.id with
  | .error e =>
    ([.deleteInstance server.id],
     ["Error: Failed to delete instance " ++ server.name ++ ": " ++ e])
  | .ok _ =>
    let kp : List Action × List String :=
      if server.name == "" then ([], [])
      else
        match c.delKeypair server.name with
        | .error e =>
          ([.deleteKeypair server.name],
           ["Warning: Failed to delete OpenStack keypair (it may not exist): " ++ e])
        | .ok _ => ([.deleteKeypair server.name], [])
    let instanceName := trimPrefix server.name InstanceNamePrefix
    let lk : List Action × List String :=
      if instanceName == "" then ([], [])
      else
        match c.deleteLocalKey instanceName with
        | .error e =>
          ([.deleteSSHKey instanceName],
           ["Warning: Failed to delete local SSH keys (they may not exist): " ++ e])
        | .ok _ => ([.deleteSSHKey instanceName], [])
    (.deleteInstance server.id :: kp.1 ++ lk.1, kp.2 ++ lk.2)

/-- `cleanupOrphanedKeypairs` is an unimplemented extension point: no-op. -/
def cleanupOrphanedKeypairs (_c : Client) : Except String Unit := .ok ()

/-- `terminateAllInstances`: list the managed instances, run the
per-instance loop over each in turn (each iteration's effects depend only
on its server, so the loop is the concatenation of per-server effects),
run the orphan sweep, and return success. -/
def terminateAllInstances (c : Client) : CmdResult :=
  match listInstances c with
  | .error e =>
    { result := .error ("failed to list instances: " ++ e)
      trace := [], warnings := [] }
  | .ok servers =>
    let sweep :=
      match cleanupOrphanedKeypairs c with
      | .error e => ["Warning: Failed to clean up orphaned keypairs: " ++ e]
      | .ok _ => []
    { result := .ok ()
      trace := servers.flatMap (fun s => (terminateOne c s).1)
      warnings := servers.flatMap (fun s => (terminateOne c s).2) ++ sweep }

/-- The acceptance check connect.go applies to an instance fetched by raw
ID: accepted when the `tins` metadata value is `"true"`, or when the name
carries the prefix (the Go slice comparison, here `hasPrefix`). -/
def connectByIdCheck (server : Server) : Option Server :=
  let tagged : Bool :=
    match server.metadata with
    | some m =>
      match m.lookup TempInstanceTag with
      | some v => v == "true"
      | none => false
    | none => false
  if tagged then some server
  else if hasPrefix server.name InstanceNamePrefix then some server
  else none

/-- Target resolution of the connect command (connect.go lines 152-196):
first fetch the identifier as a raw ID and accept the result only when it
passes `connectByIdCheck`; otherwise search the managed list for a server
whose name, ID, or prefix-stripped name equals the identifier; otherwise
not found. -/
def connectResolve (c : Client) (ident : String) : Except String Server :=
  let byID : Option Server :=
    match c.getServer ident with
    | .error _ => none
    | .ok server => connectByIdCheck server
  match byID with
  | some s => .ok s
  | none =>
    match listInstances c with
    | .error e => .error ("failed to list instances: " ++ e)
    | .ok servers =>
      match servers.find? (fun s =>
          s.name == ident || s.id == ident ||
          (hasPrefix s.name InstanceNamePrefix &&
           s.name.drop InstanceNamePrefix.length == ident)) with
      | some s => .ok s
      | none => .error ("instance " ++ ident ++ " not found")

/-- The local filesystem for the key files: the set of present paths, plus
the paths on which an I/O call (write or remove) fails with an error other
than absence (e.g. permission denied). -/
structure FS where
  files : List String
  failing : List String
  deriving DecidableEq, Repr

/-- Result of `os.Remove` as the Go code distinguishes it:
success, `os.IsNotExist`, or any other error. -/
inductive RemoveRes where
  | ok
  | notExist
  | err
  deriving DecidableEq, Repr

/-- Removing one path from a present-path set (a no-op when absent). -/
def removePath (l : List String) (p : String) : List String :=
  l.filter (fun x => x ≠ p)

/-- `os.Remove` on the FS model. -/
def removeFile (fs : FS) (p : String) : RemoveRes × FS :=
  if p ∈ fs.failing then (.err, fs)
  else if p ∈ fs.files then (.ok, { fs with files := removePath fs.files p })
  else (.notExist, fs)

/-- Writing a file: present afterwards (unchanged set if already there). -/
def writeFileFS (fs : FS) (p : String) : FS :=
  if p ∈ fs.files then fs else { fs with files := p :: fs.files }

/-- `GetSSHKeyPath`: the deterministic private-key path
`$HOME/.ssh/<prefix><name>` (filepath.Join on these components). -/
def GetSSHKeyPath (home instanceName : String) : String :=
  home ++ "/.ssh/" ++ InstanceNamePrefix ++ instanceName

/-- `DeleteSSHKey` from ssh.go: remove the private and then the public key
file; `os.IsNotExist` is tolerated on each, any other error aborts. -/
def DeleteSSHKey (home : String) (fs : FS) (instanceName : String) :
    Except String FS :=
  let privateKeyPath := GetSSHKeyPath home instanceName
  let publicKeyPath := privateKeyPath ++ ".pub"
  match removeFile fs privateKeyPath with
  | (.err, _) => .error "failed to delete private key"
  | (_, fs1) =>
    match removeFile fs1 publicKeyPath with
    | (.err, _) => .error "failed to delete public key"
    | (_, fs2) => .ok fs2

/-- `GenerateSSHKey` from ssh.go, as it acts on the path set: write the
private key then the public key at the deterministic paths (key material
itself comes from the random source and is abstracted as `publicKey`);
a failing write aborts with the error reported. -/
def GenerateSSHKey (home : String) (fs : FS) (instanceName publicKey : String) :
    Except String ((String × String × String) × FS) :=
  let privateKeyPath := GetSSHKeyPath home instanceName
  if privateKeyPath ∈ fs.failing then .error "failed to write private key"
  else
    let fs1 := writeFileFS fs privateKeyPath
    let publicKeyPath := privateKeyPath ++ ".pub"
    if publicKeyPath ∈ fs1.failing then .error "failed to write public key"
    else
      .ok ((privateKeyPath, publicKeyPath, publicKey), writeFileFS fs1 publicKeyPath)

/-! Claim-statement apparatus: predicates phrasing the spec's words, used
to state the claims about the definitions above. -/

/-- The spec's phrase for C5: some address in the map is explicitly typed
`"fixed"` or `"floating"` (and carries an address value). -/
def existsTypedAddress (s : Server) : Bool :=
  s.addresses.any (fun nw => nw.2.any (fun e =>
    (e.ipType == some "fixed" || e.ipType == some "floating") && e.addr.isSome))

/-- The spec's phrase for C5: the string `a` is the address of some entry
explicitly typed `"fixed"` or `"floating"`. -/
def isTypedResult (s : Server) (a : String) : Bool :=
  s.addresses.any (fun nw => nw.2.any (fun e =>
    (e.ipType == some "fixed" || e.ipType == some "floating") && e.addr == some a))

/-- An entry the extraction scan accepts: typed fixed/floating with an
address, or carrying no type field but an address. -/
def qualifies (e : AddrEntry) : Bool :=
  match e.ipType with
  | some t => (t == "fixed" || t == "floating") && e.addr.isSome
  | none => e.addr.isSome

/-- Spec-level recharacterisation for the amended C5: the address of the
first qualifying entry in iteration order across all networks. -/
def firstQualifyingAddr (s : Server) : Option String :=
  ((s.addresses.flatMap (fun nw => nw.2)).find? qualifies).bind AddrEntry.addr

lemma qualifies_isSome {e : AddrEntry} (h : qualifies e = true) :
    e.addr.isSome := by
  unfold qualifies at h
  cases ht : e.ipType with
  | some t =>
    rw [ht] at h
    have h2 : (t = "fixed" ∨ t = "floating") ∧ e.addr.isSome = true := by
      simpa using h
    exact h2.2
  | none => rw [ht] at h; exact h

lemma pickAddr_eq_find (l : List AddrEntry) :
    pickAddr l = (l.find? qualifies).bind AddrEntry.addr := by
  induction l with
  | nil => rfl
  | cons e rest ih =>
    rw [List.find?_cons]
    cases ht : e.ipType with
    | some t =>
      cases hft : (t == "fixed" || t == "floating") with
      | true =>
        cases ha : e.addr with
        | some a => simp [pickAddr, qualifies, ht, hft, ha]
        | none => simp [pickAddr, qualifies, ht, hft, ha, ih]
      | false =>
        cases ha : e.addr with
        | some a => simp [pickAddr, qualifies, ht, hft, ha, ih]
        | none => simp [pickAddr, qualifies, ht, hft, ha, ih]
    | none =>
      cases ha : e.addr with
      | some a => simp [pickAddr, qualifies, ht, ha]
      | none => simp [pickAddr, qualifies, ht, ha, ih]

lemma findAddr_eq_find (nws : List (String × List AddrEntry)) :
    findAddr nws =
      ((nws.flatMap (fun nw => nw.2)).find? qualifies).bind AddrEntry.addr := by
  induction nws with
  | nil => rfl
  | cons nw rest ih =>
    obtain ⟨name, entries⟩ := nw
    simp only [findAddr, List.flatMap_cons, List.find?_append, pickAddr_eq_find, ih]
    cases h : entries.find? qualifies with
    | some e =>
      have := qualifies_isSome (List.find?_some h)
      obtain ⟨a, ha⟩ := Option.isSome_iff_exists.mp this
      simp [ha]
    | none => simp

/-- Server for the C5 counterexample: one network whose first address
entry carries no type field and whose second is typed `"fixed"`. -/
def exS : Server where
  id := "srv-1"
  name := "tins-a"
  status := "ACTIVE"
  metadata := none
  addresses := [("net", [⟨none, some "10.0.0.1"⟩, ⟨some "fixed", some "10.0.0.2"⟩])]

/-- C5, counterexample: the claim says the extraction returns a
fixed/floating-typed address whenever one exists anywhere in the map, but
on `exS` a `"fixed"`-typed address exists and the extraction returns the
earlier untyped address instead. -/
theorem C5_counterexample :
    extractIPAddress exS = .ok "10.0.0.1" ∧
    existsTypedAddress exS = true ∧
    isTypedResult exS "10.0.0.1" = false := by
  refine ⟨by decide, by decide, by decide⟩

/-- C5, amended: the extraction scans address entries in iteration order
and returns the address of the first entry that is either explicitly
typed "fixed"/"floating" or carries no type field at all (so an untyped
address earlier in the order wins over a typed one later); entries typed
otherwise are skipped; it fails when no entry qualifies, and in
particular when no address is present at all. -/
theorem C5_extract_first_qualifying (s : Server) :
    extractIPAddress s =
      (match firstQualifyingAddr s with
       | some a => .ok a
       | none =>
         .error (if s.addresses.isEmpty then "no IP addresses found"
                 else "no valid IP address found")) := by
  unfold extractIPAddress firstQualifyingAddr
  rw [findAddr_eq_find]
  cases h : (s.addresses.flatMap fun nw => nw.2).find? qualifies with
  | some e =>
    obtain ⟨a, ha⟩ :=
      Option.isSome_iff_exists.mp (qualifies_isSome (List.find?_some h))
    have hne : s.addresses.isEmpty = false := by
      cases hs : s.addresses with
      | nil => rw [hs] at h; simp at h
      | cons _ _ => rfl
    simp [h, ha, hne]
  | none => cases he : s.addresses.isEmpty <;> simp [h, he]

/-- Server for the C2 counterexample: a live server whose provider ID
happens to start with the tool's name prefix. -/
def srvC2 : Server where
  id := "tins-x"
  name := "whatever"
  status := "ACTIVE"
  metadata := none
  addresses := []

/-- Client for the C2 counterexample: no managed instance exists, while a
direct fetch of the ID `"tins-x"` would succeed. -/
def cC2 : Client where
  findImage := .ok "img"
  findFlavor := .ok "flv"
  findNetwork := .ok "net"
  createKeypair := fun _ _ => .ok ()
  createServer := fun _ => .error "boom"
  rawServers := .ok []
  getServer := fun i => if i == "tins-x" then .ok srvC2 else .error "404"
  deleteServer := fun _ => .ok ()
  delKeypair := fun _ => .ok ()
  generateKey := fun _ => .ok "pk"
  deleteLocalKey := fun _ => .ok ()
  poll := fun _ _ => .error "not polled"

/-- C2, counterexample: the claim says an identifier with no exact name
match is always fetched as an opaque provider ID before "not found" is
surfaced, but for the prefix-carrying identifier `"tins-x"` the terminate
resolution surfaces "not found" at once even though the direct fetch of
that ID would succeed. -/
theorem C2_counterexample :
    terminateResolve cC2 "tins-x" = .error "instance tins-x not found" ∧
    cC2.getServer "tins-x" = .ok srvC2 := by
  constructor <;> rfl

/-- C2, amended: the opaque-ID fallback exists only for identifiers that
do not start with the name prefix: for those, when the short-name search
misses, the string is fetched directly as a provider ID and "not found"
(a failed-get error) is surfaced only when that fetch also fails; for an
identifier that already starts with the prefix, a missed full-name search
surfaces "not found" immediately, with no ID fetch attempted. -/
theorem C2_id_fallback (c : Client) (ident : String) (servers : List Server)
    (hlist : listInstances c = .ok servers) :
    (hasPrefix ident InstanceNamePrefix = false →
      servers.find? (fun s => s.name == InstanceNamePrefix ++ ident) = none →
      (∀ server, c.getServer ident = .ok server →
         terminateResolve c ident =
           .ok (ident, trimPrefix server.name InstanceNamePrefix, server.name)) ∧
      (∀ e, c.getServer ident = .error e →
         terminateResolve c ident = .error ("failed to get instance: " ++ e))) ∧
    (hasPrefix ident InstanceNamePrefix = true →
      servers.find? (fun s => s.name == ident) = none →
      terminateResolve c ident = .error ("instance " ++ ident ++ " not found")) := by
  constructor
  · intro hpre hfind
    constructor
    · intro server hget
      simp [terminateResolve, hpre, hlist, hfind, hget]
    · intro e hget
      simp [terminateResolve, hpre, hlist, hfind, hget]
  · intro hpre hfind
    simp [terminateResolve, hpre, hlist, hfind]

/-- C2, witness for the amended theorem at the concrete client `cC2`. -/
theorem C2_id_fallback_witness :
    terminateResolve cC2 "abc" = .error ("failed to get instance: " ++ "404") :=
  ((C2_id_fallback cC2 "abc" [] (by rfl)).1 (by rfl) (by rfl)).2 "404" (by rfl)

lemma mem_removePath {l : List String} {a p : String} :
    a ∈ removePath l p ↔ a ∈ l ∧ a ≠ p := by
  simp [removePath, List.mem_filter]

lemma removePath_of_not_mem {l : List String} {p : String} (h : p ∉ l) :
    removePath l p = l := by
  apply List.filter_eq_self.mpr
  intro a ha
  simp only [ne_eq, decide_eq_true_eq]
  intro heq
  exact h (heq ▸ ha)

lemma not_mem_removePath_self (l : List String) (p : String) :
    p ∉ removePath l p := by
  intro h
  exact (mem_removePath.mp h).2 rfl

lemma mem_of_mem_removePath {l : List String} {a p : String}
    (h : a ∈ removePath l p) : a ∈ l :=
  (mem_removePath.mp h).1

/-- `os.Remove` on a path with no failing I/O error: reports presence and
leaves the file set with that path removed (a no-op when absent). -/
lemma removeFile_not_failing {p : String} {fs : FS} (h : p ∉ fs.failing) :
    removeFile fs p =
      ((if p ∈ fs.files then RemoveRes.ok else RemoveRes.notExist),
       { fs with files := removePath fs.files p }) := by
  unfold removeFile
  by_cases m : p ∈ fs.files
  · simp [h, m]
  · rw [if_neg h, if_neg m, if_neg m, removePath_of_not_mem m]

/-- When neither path has a failing I/O error, `DeleteSSHKey` succeeds and
the resulting file set is the old one with both key paths removed. -/
lemma DeleteSSHKey_ok (home n : String) (fs : FS)
    (hpriv : GetSSHKeyPath home n ∉ fs.failing)
    (hpub : GetSSHKeyPath home n ++ ".pub" ∉ fs.failing) :
    DeleteSSHKey home fs n =
      .ok { files := removePath (removePath fs.files (GetSSHKeyPath home n))
                       (GetSSHKeyPath home n ++ ".pub")
            failing := fs.failing } := by
  show (match removeFile fs (GetSSHKeyPath home n) with
    | (RemoveRes.err, _) => Except.error "failed to delete private key"
    | (_, fs1) =>
      match removeFile fs1 (GetSSHKeyPath home n ++ ".pub") with
      | (RemoveRes.err, _) => Except.error "failed to delete public key"
      | (_, fs2) => Except.ok fs2) = _
  by_cases m1 : GetSSHKeyPath home n ∈ fs.files <;>
  by_cases m2 : GetSSHKeyPath home n ++ ".pub" ∈
      removePath fs.files (GetSSHKeyPath home n) <;>
    simp [removeFile_not_failing, hpriv, hpub, m1, m2]

/-- C8: local key deletion is idempotent: with no failing I/O on the two
deterministic paths, deleting when either or both files are absent
succeeds with the filesystem unchanged; a delete always succeeds and a
second delete is a no-op success; generation followed by deletion leaves
zero files at the two paths; and a non-absence filesystem error (a
failing path) propagates as an error. -/
theorem C8_delete_ssh_key (home instanceName : String) (fs : FS)
    (hpriv : GetSSHKeyPath home instanceName ∉ fs.failing)
    (hpub : GetSSHKeyPath home instanceName ++ ".pub" ∉ fs.failing) :
    (GetSSHKeyPath home instanceName ∉ fs.files →
     GetSSHKeyPath home instanceName ++ ".pub" ∉ fs.files →
       DeleteSSHKey home fs instanceName = .ok fs) ∧
    (∃ fs2, DeleteSSHKey home fs instanceName = .ok fs2 ∧
            DeleteSSHKey home fs2 instanceName = .ok fs2 ∧
            GetSSHKeyPath home instanceName ∉ fs2.files ∧
            GetSSHKeyPath home instanceName ++ ".pub" ∉ fs2.files) ∧
    (∀ pk kp fs1, GenerateSSHKey home fs instanceName pk = .ok (kp, fs1) →
       ∃ fs2, DeleteSSHKey home fs1 instanceName = .ok fs2 ∧
              GetSSHKeyPath home instanceName ∉ fs2.files ∧
              GetSSHKeyPath home instanceName ++ ".pub" ∉ fs2.files) ∧
    (∀ fs3 : FS, GetSSHKeyPath home instanceName ∈ fs3.failing →
       ∃ e, DeleteSSHKey home fs3 instanceName = .error e) := by
  set priv := GetSSHKeyPath home instanceName with hprivdef
  set pub := GetSSHKeyPath home instanceName ++ ".pub" with hpubdef
  have habsent : ∀ fsx : FS, priv ∉ fsx.failing → pub ∉ fsx.failing →
      priv ∉ fsx.files → pub ∉ fsx.files →
      DeleteSSHKey home fsx instanceName = .ok fsx := by
    intro fsx f1 f2 m1 m2
    rw [DeleteSSHKey_ok home instanceName fsx f1 f2]
    rw [removePath_of_not_mem m1, removePath_of_not_mem m2]
  have hclean : ∀ fsx : FS,
      priv ∉ removePath (removePath fsx.files priv) pub ∧
      pub ∉ removePath (removePath fsx.files priv) pub := by
    intro fsx
    constructor
    · intro h
      exact not_mem_removePath_self _ priv (mem_of_mem_removePath h)
    · exact not_mem_removePath_self _ pub
  refine ⟨habsent fs hpriv hpub, ?_, ?_, ?_⟩
  · refine ⟨_, DeleteSSHKey_ok home instanceName fs hpriv hpub, ?_,
      (hclean fs).1, (hclean fs).2⟩
    apply habsent
    · exact hpriv
    · exact hpub
    · exact (hclean fs).1
    · exact (hclean fs).2
  · intro pk kp fs1 hgen
    have hfail1 : fs1.failing = fs.failing := by
      unfold GenerateSSHKey at hgen
      by_cases h1 : priv ∈ fs.failing
      · simp [← hprivdef, h1] at hgen
      · by_cases h2 : pub ∈ (writeFileFS fs priv).failing
        · simp [← hprivdef, ← hpubdef, h1, h2] at hgen
        · simp [← hprivdef, ← hpubdef, h1, h2] at hgen
          rw [← hgen.2]
          unfold writeFileFS
          by_cases m1 : priv ∈ fs.files
          · by_cases m2 : pub ∈ fs.files <;> simp [m1, m2]
          · by_cases m2 : pub ∈ ({ fs with files := priv :: fs.files } : FS).files <;>
              simp [m1, m2]
    exact ⟨_, DeleteSSHKey_ok home instanceName fs1
      (hfail1 ▸ hpriv) (hfail1 ▸ hpub), (hclean fs1).1, (hclean fs1).2⟩
  · intro fs3 hf
    refine ⟨"failed to delete private key", ?_⟩
    unfold DeleteSSHKey removeFile
    simp [← hprivdef, hf]

/-- C8, witness: the theorem applied at a concrete empty filesystem. -/
theorem C8_delete_ssh_key_witness :
    DeleteSSHKey "/root" { files := [], failing := [] } "alpha" =
      .ok { files := [], failing := [] } :=
  (C8_delete_ssh_key "/root" "alpha" { files := [], failing := [] }
    (by simp) (by simp)).1 (by simp) (by simp)

/-- The k-th poll observes a non-terminal status (neither ACTIVE nor
ERROR, no fetch error) strictly before the deadline would fire. -/
def nonTerminalAt (get : Nat → Except String Server) (timeoutSecs k : Nat) : Prop :=
  ∃ server, get k = .ok server ∧ server.status ≠ "ACTIVE" ∧
    server.status ≠ "ERROR" ∧ 5 * (k + 1) ≤ timeoutSecs

lemma waitGo_not_stuck (get : Nat → Except String Server) (t : Nat) :
    ∀ fuel k, t / 5 + 1 ≤ k + fuel → k ≤ t / 5 →
      waitGo get t k fuel ≠ .stuck := by
  intro fuel
  induction fuel with
  | zero => intro k h1 h2; omega
  | succ m ih =>
    intro k h1 h2
    unfold waitGo
    cases hget : get k with
    | error e => simp
    | ok server =>
      by_cases hA : (server.status == "ACTIVE") = true
      · simp [hA]
      · by_cases hE : (server.status == "ERROR") = true
        · simp [hA, hE]
        · by_cases hT : 5 * (k + 1) > t
          · simp [hA, hE, hT]
          · have hk1 : k + 1 ≤ t / 5 := by omega
            simp only [hA, hE, hT, Bool.false_eq_true, if_false, ite_false]
            exact ih (k + 1) (by omega) hk1

lemma waitGo_skip (get : Nat → Except String Server) (t : Nat) :
    ∀ (n k fuel : Nat), (∀ j, j < n → nonTerminalAt get t (k + j)) →
      waitGo get t k (fuel + n) = waitGo get t (k + n) fuel := by
  intro n
  induction n with
  | zero => intro k fuel _; rfl
  | succ m ih =>
    intro k fuel hnt
    obtain ⟨server, hget, hA, hE, hT⟩ := hnt 0 (by omega)
    simp only [Nat.add_zero] at hget hA hE hT
    have step : waitGo get t k (fuel + m + 1) = waitGo get t (k + 1) (fuel + m) := by
      rw [waitGo, hget]
      simp [hA, hE, Nat.not_lt.mpr hT]
    have harg : fuel + (m + 1) = fuel + m + 1 := by omega
    rw [harg, step, ih (k + 1) fuel (fun j hj => by
      have := hnt (j + 1) (by omega)
      simpa [Nat.add_assoc, Nat.add_comm 1 j] using this)]
    congr 1
    omega

/-- C9: the readiness poll checks the status once per 5-second tick and
always terminates with one of its four outcomes (never out of fuel); with
the create command's 300-second budget: if every poll before tick `k` is
non-terminal and tick `k` observes ACTIVE the wait succeeds, and ERROR
within the deadline makes it fail; if every tick up to the deadline (tick
60) is non-terminal the wait times out; finally, the create command
reports any non-ok wait outcome as a warning and still returns success. -/
theorem C9_wait_poll (get : Nat → Except String Server) (k : Nat)
    (c : Client) (instanceName : String) :
    (WaitForInstanceActive get 300 ≠ .stuck) ∧
    ((∀ j, j < k → nonTerminalAt get 300 j) →
      (∀ server, get k = .ok server →
        (server.status = "ACTIVE" → WaitForInstanceActive get 300 = .ok) ∧
        (server.status = "ERROR" → 5 * (k + 1) ≤ 300 →
          WaitForInstanceActive get 300 = .errState))) ∧
    ((∀ j, j ≤ 60 → nonTerminalAt get 300 j ∨
        (∃ server, get j = .ok server ∧ server.status ≠ "ACTIVE" ∧
           server.status ≠ "ERROR")) →
      WaitForInstanceActive get 300 = .timeout) ∧
    (∀ publicKey server,
      c.generateKey instanceName = .ok publicKey →
      (CreateInstance c (InstanceNamePrefix ++ instanceName) publicKey).1 = .ok server →
      WaitForInstanceActive (c.poll server.id) 300 ≠ .ok →
      (createCmd c instanceName).result = .ok () ∧
      "Warning: Instance may not be ready yet" ∈ (createCmd c instanceName).warnings) := by
  have hreach : ∀ kk, kk ≤ 60 → (∀ j, j < kk → nonTerminalAt get 300 j) →
      WaitForInstanceActive get 300 = waitGo get 300 kk (61 - kk) := by
    intro kk hk hpre
    unfold WaitForInstanceActive
    have h61 : (61 - kk) + kk = 61 := by omega
    calc waitGo get 300 0 61 = waitGo get 300 0 ((61 - kk) + kk) := by rw [h61]
      _ = waitGo get 300 (0 + kk) (61 - kk) := waitGo_skip get 300 kk 0 (61 - kk)
            (fun j hj => by simpa using hpre j hj)
      _ = waitGo get 300 kk (61 - kk) := by rw [Nat.zero_add]
  refine ⟨waitGo_not_stuck get 300 61 0 (by norm_num) (by norm_num), ?_, ?_, ?_⟩
  · intro hpre server hget
    constructor
    · intro hA
      have hk : k ≤ 60 := by
        by_contra hgt
        obtain ⟨_, _, _, _, hT⟩ := hpre 60 (by omega)
        omega
      rw [hreach k hk hpre]
      obtain ⟨m, hm⟩ : ∃ m, 61 - k = m + 1 := ⟨60 - k, by omega⟩
      rw [hm, waitGo, hget]
      simp [hA]
    · intro hE hdead
      have hk : k ≤ 60 := by omega
      rw [hreach k hk hpre]
      obtain ⟨m, hm⟩ : ∃ m, 61 - k = m + 1 := ⟨60 - k, by omega⟩
      rw [hm, waitGo, hget]
      have hA : server.status ≠ "ACTIVE" := by rw [hE]; decide
      simp [hA, hE]
  · intro hnt
    have hsteps : ∀ j, j < 60 → nonTerminalAt get 300 j := by
      intro j hj
      rcases hnt j (by omega) with h | ⟨server, hget, hA, hE⟩
      · exact h
      · exact ⟨server, hget, hA, hE, by omega⟩
    rw [hreach 60 (by norm_num) hsteps]
    rcases hnt 60 (by omega) with ⟨server, hget, hA, hE, hT⟩ | ⟨server, hget, hA, hE⟩
    · omega
    · show waitGo get 300 60 1 = .timeout
      rw [waitGo, hget]
      simp [hA, hE]
  · intro publicKey server hgen hcreate hwait
    unfold createCmd
    rw [hgen]
    dsimp only
    rw [show CreateInstance c (InstanceNamePrefix ++ instanceName) publicKey =
        ((CreateInstance c (InstanceNamePrefix ++ instanceName) publicKey).1,
         (CreateInstance c (InstanceNamePrefix ++ instanceName) publicKey).2) from rfl]
    rw [hcreate]
    cases hw : WaitForInstanceActive (c.poll server.id) 300 with
    | ok => exact absurd hw hwait
    | errState => exact ⟨rfl, by simp⟩
    | getErr e => exact ⟨rfl, by simp⟩
    | timeout => exact ⟨rfl, by simp⟩
    | stuck => exact ⟨rfl, by simp⟩

/-- Poll stream for the C9 witness: BUILD on ticks 0 and 1, ACTIVE from 2. -/
def getW : Nat → Except String Server := fun kk =>
  .ok { id := "i", name := "tins-w", status := if kk < 2 then "BUILD" else "ACTIVE",
        metadata := none, addresses := [] }

/-- Client for the C9 witness (its fields are never consulted there). -/
def cW : Client where
  findImage := .ok "img"
  findFlavor := .ok "flv"
  findNetwork := .ok "net"
  createKeypair := fun _ _ => .ok ()
  createServer := fun _ => .error "unused"
  rawServers := .ok []
  getServer := fun _ => .error "unused"
  deleteServer := fun _ => .ok ()
  delKeypair := fun _ => .ok ()
  generateKey := fun _ => .ok "pk"
  deleteLocalKey := fun _ => .ok ()
  poll := fun _ => getW

/-- C9, witness: the theorem applied to the concrete poll stream `getW`,
whose first terminal observation is ACTIVE at tick 2. -/
theorem C9_wait_poll_witness : WaitForInstanceActive getW 300 = .ok :=
  (((C9_wait_poll getW 2 cW "w").2.1
    (fun j hj =>
      ⟨{ id := "i", name := "tins-w", status := "BUILD",
         metadata := none, addresses := [] },
       by simp [getW, hj], by decide, by decide, by omega⟩))
    { id := "i", name := "tins-w", status := "ACTIVE",
      metadata := none, addresses := [] }
    (by norm_num [getW])).1 rfl

/-- No branch of `CreateInstance` ever issues a keypair deletion. -/
lemma CreateInstance_no_deleteKeypair (c : Client) (nm pk n : String) :
    Action.deleteKeypair n ∉ (CreateInstance c nm pk).2 := by
  unfold CreateInstance
  cases c.findImage with
  | error e => simp
  | ok a =>
    cases c.findFlavor with
    | error e => simp
    | ok b =>
      cases c.findNetwork with
      | error e => simp
      | ok d =>
        by_cases hpk : (pk == "") = true
        · rw [if_pos hpk]
          cases c.createServer nm <;> simp
        · rw [if_neg hpk]
          cases c.createKeypair nm pk with
          | error e => simp
          | ok u => cases c.createServer nm <;> simp

/-- C1: in the create workflow, when remote instance creation fails after
the local key pair was generated, the local key deletion is attempted and
the creation error is returned unchanged (a cleanup failure is only
recorded as a warning, never replacing the error), and no remote keypair
deletion is ever attempted. -/
theorem C1_create_rollback (c : Client) (instanceName publicKey e : String)
    (hgen : c.generateKey instanceName = .ok publicKey)
    (hcreate : (CreateInstance c (InstanceNamePrefix ++ instanceName) publicKey).1
      = .error e) :
    (createCmd c instanceName).result = .error ("failed to create instance: " ++ e) ∧
    Action.deleteSSHKey instanceName ∈ (createCmd c instanceName).trace ∧
    (∀ n, Action.deleteKeypair n ∉ (createCmd c instanceName).trace) ∧
    (∀ de, c.deleteLocalKey instanceName = .error de →
      ("Warning: Failed to clean up SSH key: " ++ de) ∈
        (createCmd c instanceName).warnings) := by
  unfold createCmd
  rw [hgen]
  dsimp only
  rw [show CreateInstance c (InstanceNamePrefix ++ instanceName) publicKey =
      ((CreateInstance c (InstanceNamePrefix ++ instanceName) publicKey).1,
       (CreateInstance c (InstanceNamePrefix ++ instanceName) publicKey).2) from rfl]
  rw [hcreate]
  refine ⟨rfl, by simp, ?_, ?_⟩
  · intro n hmem
    simp only [List.mem_cons, List.mem_append, List.mem_singleton] at hmem
    rcases hmem with (h | h) | h
    · simp at h
    · exact CreateInstance_no_deleteKeypair c (InstanceNamePrefix ++ instanceName)
        publicKey n h
    · simp at h
  · intro de hde
    rw [hde]
    simp

/-- Client for the C1 witness: server creation fails, all else succeeds. -/
def cF : Client where
  findImage := .ok "img"
  findFlavor := .ok "flv"
  findNetwork := .ok "net"
  createKeypair := fun _ _ => .ok ()
  createServer := fun _ => .error "boom"
  rawServers := .ok []
  getServer := fun _ => .error "404"
  deleteServer := fun _ => .ok ()
  delKeypair := fun _ => .ok ()
  generateKey := fun _ => .ok "pk"
  deleteLocalKey := fun _ => .ok ()
  poll := fun _ _ => .error "not polled"

/-- C1, witness: the theorem applied to `cF`, whose server creation fails. -/
theorem C1_create_rollback_witness :
    (createCmd cF "abc").result =
      .error ("failed to create instance: " ++ ("failed to create server: " ++ "boom")) ∧
    Action.deleteSSHKey "abc" ∈ (createCmd cF "abc").trace :=
  ⟨(C1_create_rollback cF "abc" "pk" ("failed to create server: " ++ "boom")
      rfl (by rfl)).1,
   (C1_create_rollback cF "abc" "pk" ("failed to create server: " ++ "boom")
      rfl (by rfl)).2.1⟩

/-- C10: in `CreateInstance` the image, flavor and network resolutions all
run before the remote keypair registration: if any of them fails the call
errors with neither a keypair-creation nor a server-creation call made;
and whenever the call errors although the keypair registration succeeded,
the server-creation call itself failed. -/
theorem C10_resolution_before_keypair (c : Client) (nm pk : String) :
    (((∃ e, c.findImage = .error e) ∨ (∃ e, c.findFlavor = .error e) ∨
        (∃ e, c.findNetwork = .error e)) →
      (∃ e, (CreateInstance c nm pk).1 = .error e) ∧
      (∀ n, Action.createKeypair n ∉ (CreateInstance c nm pk).2) ∧
      (∀ n, Action.createServer n ∉ (CreateInstance c nm pk).2)) ∧
    (∀ e, (CreateInstance c nm pk).1 = .error e →
      Action.createKeypair nm ∈ (CreateInstance c nm pk).2 →
      c.createKeypair nm pk = .ok () →
      ∃ e2, c.createServer nm = .error e2 ∧
        e = "failed to create server: " ++ e2) := by
  constructor
  · intro hres
    cases hfi : c.findImage with
    | error e1 =>
      unfold CreateInstance
      rw [hfi]
      exact ⟨⟨e1, rfl⟩, by simp, by simp⟩
    | ok a =>
      cases hff : c.findFlavor with
      | error e1 =>
        unfold CreateInstance
        rw [hfi, hff]
        exact ⟨⟨e1, rfl⟩, by simp, by simp⟩
      | ok b =>
        cases hfn : c.findNetwork with
        | error e1 =>
          unfold CreateInstance
          rw [hfi, hff, hfn]
          exact ⟨⟨e1, rfl⟩, by simp, by simp⟩
        | ok d =>
          exfalso
          rcases hres with ⟨e1, h⟩ | ⟨e1, h⟩ | ⟨e1, h⟩ <;> simp_all
  · intro e herr hkp hok
    cases hfi : c.findImage with
    | error e1 =>
      exfalso
      unfold CreateInstance at hkp
      rw [hfi] at hkp
      simp at hkp
    | ok a =>
      cases hff : c.findFlavor with
      | error e1 =>
        exfalso
        unfold CreateInstance at hkp
        rw [hfi, hff] at hkp
        simp at hkp
      | ok b =>
        cases hfn : c.findNetwork with
        | error e1 =>
          exfalso
          unfold CreateInstance at hkp
          rw [hfi, hff, hfn] at hkp
          simp at hkp
        | ok d =>
          by_cases hpk : (pk == "") = true
          · exfalso
            unfold CreateInstance at hkp
            rw [hfi, hff, hfn, if_pos hpk] at hkp
            cases hcs : c.createServer nm <;> rw [hcs] at hkp <;> simp at hkp
          · cases hcs : c.createServer nm with
            | error e2 =>
              refine ⟨e2, rfl, ?_⟩
              unfold CreateInstance at herr
              rw [hfi, hff, hfn, if_neg hpk, hok, hcs] at herr
              simpa using herr.symm
            | ok s =>
              exfalso
              unfold CreateInstance at herr
              rw [hfi, hff, hfn, if_neg hpk, hok, hcs] at herr
              simp at herr

/-- Client for the C10 witness: flavor resolution fails. -/
def cR : Client where
  findImage := .ok "img"
  findFlavor := .error "flv missing"
  findNetwork := .ok "net"
  createKeypair := fun _ _ => .ok ()
  createServer := fun _ => .error "unreached"
  rawServers := .ok []
  getServer := fun _ => .error "404"
  deleteServer := fun _ => .ok ()
  delKeypair := fun _ => .ok ()
  generateKey := fun _ => .ok "pk"
  deleteLocalKey := fun _ => .ok ()
  poll := fun _ _ => .error "not polled"

/-- C10, witness: the theorem applied to `cR`, whose flavor resolution
fails, so creation errors with no keypair registered. -/
theorem C10_resolution_before_keypair_witness :
    (∃ e, (CreateInstance cR "tins-n" "pk").1 = .error e) ∧
    (∀ n, Action.createKeypair n ∉ (CreateInstance cR "tins-n" "pk").2) :=
  ⟨((C10_resolution_before_keypair cR "tins-n" "pk").1
      (Or.inr (Or.inl ⟨"flv missing", rfl⟩))).1,
   ((C10_resolution_before_keypair cR "tins-n" "pk").1
      (Or.inr (Or.inl ⟨"flv missing", rfl⟩))).2.1⟩

/-- C6: in the single-target terminate workflow, a failed instance
deletion aborts with the wrapped error and a trace holding only the
deletion attempt (neither cleanup is attempted); after a successful
instance deletion the command returns success unconditionally, and a
failing remote-keypair or local-key deletion only contributes a printed
warning. -/
theorem C6_terminate_single (c : Client)
    (ident serverID instanceName fullInstanceName : String)
    (hres : terminateResolve c ident = .ok (serverID, instanceName, fullInstanceName)) :
    (∀ e, c.deleteServer serverID = .error e →
       (terminateCmd c ident).result = .error ("failed to delete instance: " ++ e) ∧
       (terminateCmd c ident).trace = [.deleteInstance serverID]) ∧
    (c.deleteServer serverID = .ok () →
       (terminateCmd c ident).result = .ok () ∧
       .deleteInstance serverID ∈ (terminateCmd c ident).trace ∧
       (∀ e, fullInstanceName ≠ "" → c.delKeypair fullInstanceName = .error e →
          ("Warning: Failed to delete OpenStack keypair (it may not exist): " ++ e) ∈
            (terminateCmd c ident).warnings) ∧
       (∀ e, instanceName ≠ "" → c.deleteLocalKey instanceName = .error e →
          ("Warning: Failed to delete local SSH keys (they may not exist): " ++ e) ∈
            (terminateCmd c ident).warnings)) := by
  constructor
  · intro e hdel
    unfold terminateCmd
    rw [hres]
    dsimp only
    rw [hdel]
    exact ⟨rfl, rfl⟩
  · intro hdel
    unfold terminateCmd
    rw [hres]
    dsimp only
    rw [hdel]
    refine ⟨rfl, by simp, ?_, ?_⟩
    · intro e hfn hkq
      have hfb : (fullInstanceName == "") = false := by
        simp [hfn]
      rw [hfb]
      dsimp only
      rw [hkq]
      simp
    · intro e hin hlq
      have hib : (instanceName == "") = false := by
        simp [hin]
      rw [hib]
      dsimp only
      rw [hlq]
      by_cases hfb : (fullInstanceName == "") = true
      · rw [hfb]
        simp
      · rw [Bool.not_eq_true] at hfb
        rw [hfb]
        dsimp only
        cases hkq : c.delKeypair fullInstanceName <;> simp

/-- Server and client for the C6 witness: one managed instance whose
remote keypair deletion fails while everything else succeeds. -/
def srvT : Server where
  id := "id-7"
  name := "tins-w6"
  status := "ACTIVE"
  metadata := some [("tins", "true")]
  addresses := []

/-- Client for the C6 witness. -/
def cT : Client where
  findImage := .ok "img"
  findFlavor := .ok "flv"
  findNetwork := .ok "net"
  createKeypair := fun _ _ => .ok ()
  createServer := fun _ => .error "unused"
  rawServers := .ok [srvT]
  getServer := fun _ => .error "404"
  deleteServer := fun _ => .ok ()
  delKeypair := fun _ => .error "keypair gone"
  generateKey := fun _ => .ok "pk"
  deleteLocalKey := fun _ => .ok ()
  poll := fun _ _ => .error "not polled"

/-- C6, witness: the theorem applied to `cT` and identifier `"w6"`: the
command succeeds and the keypair-deletion failure shows up as a warning. -/
theorem C6_terminate_single_witness :
    (terminateCmd cT "w6").result = .ok () ∧
    ("Warning: Failed to delete OpenStack keypair (it may not exist): " ++
       "keypair gone") ∈ (terminateCmd cT "w6").warnings :=
  ⟨((C6_terminate_single cT "w6" "id-7" "w6" "tins-w6" (by rfl)).2 rfl).1,
   ((C6_terminate_single cT "w6" "id-7" "w6" "tins-w6" (by rfl)).2 rfl).2.2.1
     "keypair gone" (by decide) rfl⟩

lemma terminateOne_deleteInstance (c : Client) (s : Server) :
    Action.deleteInstance s.id ∈ (terminateOne c s).1 := by
  unfold terminateOne
  cases c.deleteServer s.id <;> simp

lemma terminateOne_err_warn (c : Client) (s : Server) (e : String)
    (h : c.deleteServer s.id = .error e) :
    ("Error: Failed to delete instance " ++ s.name ++ ": " ++ e) ∈
      (terminateOne c s).2 := by
  unfold terminateOne
  rw [h]
  simp

lemma terminateOne_keypair (c : Client) (s : Server)
    (h : c.deleteServer s.id = .ok ()) (hn : s.name ≠ "") :
    Action.deleteKeypair s.name ∈ (terminateOne c s).1 := by
  unfold terminateOne
  rw [h]
  refine List.mem_cons_of_mem _ (List.mem_append_left _ ?_)
  have hb : (s.name == "") = false := by simp [hn]
  rw [hb]
  cases hkq : c.delKeypair s.name <;> simp

lemma terminateOne_localkey (c : Client) (s : Server)
    (h : c.deleteServer s.id = .ok ())
    (hi : trimPrefix s.name InstanceNamePrefix ≠ "") :
    Action.deleteSSHKey (trimPrefix s.name InstanceNamePrefix) ∈
      (terminateOne c s).1 := by
  unfold terminateOne
  rw [h]
  refine List.mem_cons_of_mem _ (List.mem_append_right _ ?_)
  have hib : (trimPrefix s.name InstanceNamePrefix == "") = false := by simp [hi]
  rw [hib]
  cases hlq : c.deleteLocalKey (trimPrefix s.name InstanceNamePrefix) <;> simp

/-- C7: the batch terminate-all workflow returns success whenever the
listing succeeded, attempts the instance deletion of every listed
instance (so no per-instance failure aborts the loop), logs every failed
instance deletion, and after a successful instance deletion attempts the
remote-keypair and local-key deletions for that instance. -/
theorem C7_terminate_all (c : Client) (servers : List Server)
    (hlist : listInstances c = .ok servers) :
    (terminateAllInstances c).result = .ok () ∧
    (∀ s ∈ servers, Action.deleteInstance s.id ∈ (terminateAllInstances c).trace) ∧
    (∀ s ∈ servers, ∀ e, c.deleteServer s.id = .error e →
       ("Error: Failed to delete instance " ++ s.name ++ ": " ++ e) ∈
         (terminateAllInstances c).warnings) ∧
    (∀ s ∈ servers, c.deleteServer s.id = .ok () → s.name ≠ "" →
       Action.deleteKeypair s.name ∈ (terminateAllInstances c).trace) ∧
    (∀ s ∈ servers, c.deleteServer s.id = .ok () →
       trimPrefix s.name InstanceNamePrefix ≠ "" →
       Action.deleteSSHKey (trimPrefix s.name InstanceNamePrefix) ∈
         (terminateAllInstances c).trace) := by
  have htrace : ∀ (x : Action) (s : Server), s ∈ servers →
      x ∈ (terminateOne c s).1 → x ∈ (terminateAllInstances c).trace := by
    intro x s hs hx
    unfold terminateAllInstances
    rw [hlist]
    dsimp only
    exact List.mem_flatMap.mpr ⟨s, hs, hx⟩
  have hwarn : ∀ (w : String) (s : Server), s ∈ servers →
      w ∈ (terminateOne c s).2 → w ∈ (terminateAllInstances c).warnings := by
    intro w s hs hw
    unfold terminateAllInstances
    rw [hlist]
    dsimp only
    exact List.mem_append_left _ (List.mem_flatMap.mpr ⟨s, hs, hw⟩)
  refine ⟨?_, ?_, ?_, ?_, ?_⟩
  · unfold terminateAllInstances
    rw [hlist]
  · intro s hs
    exact htrace _ s hs (terminateOne_deleteInstance c s)
  · intro s hs e he
    exact hwarn _ s hs (terminateOne_err_warn c s e he)
  · intro s hs hok hn
    exact htrace _ s hs (terminateOne_keypair c s hok hn)
  · intro s hs hok hi
    exact htrace _ s hs (terminateOne_localkey c s hok hi)

/-- Servers for the C7 witness: the first deletes fine, the second's
instance deletion fails. -/
def srvA : Server where
  id := "id-a"
  name := "tins-a7"
  status := "ACTIVE"
  metadata := none
  addresses := []

/-- Second server for the C7 witness. -/
def srvB : Server where
  id := "id-b"
  name := "tins-b7"
  status := "ACTIVE"
  metadata := none
  addresses := []

/-- Client for the C7 witness: deleting `srvB` fails, the rest succeeds. -/
def cB : Client where
  findImage := .ok "img"
  findFlavor := .ok "flv"
  findNetwork := .ok "net"
  createKeypair := fun _ _ => .ok ()
  createServer := fun _ => .error "unused"
  rawServers := .ok [srvA, srvB]
  getServer := fun _ => .error "404"
  deleteServer := fun i => if i == "id-b" then .error "boom" else .ok ()
  delKeypair := fun _ => .ok ()
  generateKey := fun _ => .ok "pk"
  deleteLocalKey := fun _ => .ok ()
  poll := fun _ _ => .error "not polled"

/-- C7, witness: the theorem applied to `cB`: the batch succeeds, both
deletions are attempted, and the second failure is logged. -/
theorem C7_terminate_all_witness :
    (terminateAllInstances cB).result = .ok () ∧
    Action.deleteInstance "id-b" ∈ (terminateAllInstances cB).trace ∧
    ("Error: Failed to delete instance " ++ "tins-b7" ++ ": " ++ "boom") ∈
      (terminateAllInstances cB).warnings :=
  ⟨(C7_terminate_all cB [srvA, srvB] (by rfl)).1,
   (C7_terminate_all cB [srvA, srvB] (by rfl)).2.1 srvB (by decide),
   (C7_terminate_all cB [srvA, srvB] (by rfl)).2.2.1 srvB (by decide) "boom" rfl⟩

/-! Helpers for the identifier-resolution claims C3 and C4. -/

/-- The provider ID the terminate workflow's resolution selects. -/
def resolvedTerminateId (c : Client) (ident : String) : Option String :=
  match terminateResolve c ident with
  | .ok (serverID, _, _) => some serverID
  | .error _ => none

/-- The provider ID the connect workflow's resolution selects. -/
def resolvedConnectId (c : Client) (ident : String) : Option String :=
  match connectResolve c ident with
  | .ok s => some s.id
  | .error _ => none

lemma hasPrefix_append (p s : String) : hasPrefix (p ++ s) p = true := by
  unfold hasPrefix
  rw [beq_iff_eq]
  apply String.ext
  rw [String.data_take, String.data_append, String.length]
  exact List.take_left _ _

lemma drop_append_str (p s : String) : (p ++ s).drop p.length = s := by
  apply String.ext
  rw [String.data_drop, String.data_append, String.length]
  exact List.drop_left _ _

lemma find?_eq_some_of_unique {α : Type} {p : α → Bool} {l : List α} {a : α}
    (ha : a ∈ l) (hpa : p a = true) (huniq : ∀ b ∈ l, p b = true → b = a) :
    l.find? p = some a := by
  induction l with
  | nil => cases ha
  | cons x xs ih =>
    by_cases hx : p x = true
    · rw [List.find?_cons_of_pos _ hx, huniq x (List.mem_cons_self x xs) hx]
    · rw [List.find?_cons_of_neg _ hx]
      apply ih
      · rcases List.mem_cons.mp ha with h | h
        · exact absurd (h ▸ hpa) hx
        · exact h
      · exact fun b hb hpb => huniq b (List.mem_cons_of_mem _ hb) hpb

lemma connectByIdCheck_of_prefixed {srv : Server}
    (h : hasPrefix srv.name InstanceNamePrefix = true) :
    connectByIdCheck srv = some srv := by
  unfold connectByIdCheck
  cases hm : srv.metadata with
  | none => simp [h]
  | some m =>
    cases hl : m.lookup TempInstanceTag with
    | none => simp [hl, h]
    | some v =>
      by_cases hv : (v == "true") = true
      · simp [hl, hv]
      · simp only [Bool.not_eq_true] at hv
        simp [hl, hv, h]

lemma connectByIdCheck_unmanaged {srv : Server}
    (h : isManaged srv = false) :
    connectByIdCheck srv = none := by
  unfold isManaged at h
  rw [Bool.or_eq_false_iff] at h
  unfold connectByIdCheck
  rw [h.1, h.2]
  rfl

/-- C3: for a managed instance named `prefix ++ short`, the short name,
the full name and the raw provider ID all resolve to the same instance
(the same provider ID) in both the terminate and the connect workflows,
provided the direct-fetch oracle succeeds exactly on the raw ID and no
other managed instance collides with any of the three identifiers. -/
theorem C3_resolution_coherence (c : Client) (short eS eF : String)
    (srv : Server) (L : List Server)
    (hshort : hasPrefix short InstanceNamePrefix = false)
    (hname : srv.name = InstanceNamePrefix ++ short)
    (hlist : listInstances c = .ok L)
    (hmem : srv ∈ L)
    (hidpre : hasPrefix srv.id InstanceNamePrefix = false)
    (hget : c.getServer srv.id = .ok srv)
    (hgetS : c.getServer short = .error eS)
    (hgetF : c.getServer (InstanceNamePrefix ++ short) = .error eF)
    (hneq : srv.id ≠ short)
    (hdistinct : ∀ s ∈ L, s = srv ∨
      (s.name ≠ short ∧ s.id ≠ short ∧
       s.name.drop InstanceNamePrefix.length ≠ short ∧
       s.name ≠ InstanceNamePrefix ++ short ∧
       s.id ≠ InstanceNamePrefix ++ short ∧
       s.name.drop InstanceNamePrefix.length ≠ InstanceNamePrefix ++ short ∧
       s.name ≠ InstanceNamePrefix ++ srv.id)) :
    resolvedTerminateId c short = some srv.id ∧
    resolvedTerminateId c (InstanceNamePrefix ++ short) = some srv.id ∧
    resolvedTerminateId c srv.id = some srv.id ∧
    resolvedConnectId c short = some srv.id ∧
    resolvedConnectId c (InstanceNamePrefix ++ short) = some srv.id ∧
    resolvedConnectId c srv.id = some srv.id := by
  have hfindName : L.find? (fun s => s.name == InstanceNamePrefix ++ short)
      = some srv := by
    apply find?_eq_some_of_unique hmem
    · simp [hname]
    · intro b hb hpb
      rcases hdistinct b hb with h | h
      · exact h
      · rw [beq_iff_eq] at hpb
        exact absurd hpb h.2.2.2.1
  have hfindIdName : L.find? (fun s => s.name == InstanceNamePrefix ++ srv.id)
      = none := by
    apply List.find?_eq_none.mpr
    intro s hs
    rcases hdistinct s hs with h | h
    · rw [h, hname]
      intro hbeq
      rw [beq_iff_eq] at hbeq
      have h2 : short = srv.id := by
        have := congrArg (fun t => String.drop t InstanceNamePrefix.length) hbeq
        simpa [drop_append_str] using this
      exact hneq h2.symm
    · simp [h.2.2.2.2.2.2]
  have hfindConnS : L.find? (fun s =>
      s.name == short || s.id == short ||
      (hasPrefix s.name InstanceNamePrefix &&
       s.name.drop InstanceNamePrefix.length == short)) = some srv := by
    apply find?_eq_some_of_unique hmem
    · rw [hname]
      simp [hasPrefix_append, drop_append_str]
    · intro b hb hpb
      rcases hdistinct b hb with h | h
      · exact h
      · simp only [Bool.or_eq_true, Bool.and_eq_true, beq_iff_eq] at hpb
        rcases hpb with (h1 | h1) | ⟨_, h1⟩
        · exact absurd h1 h.1
        · exact absurd h1 h.2.1
        · exact absurd h1 h.2.2.1
  have hfindConnF : L.find? (fun s =>
      s.name == InstanceNamePrefix ++ short ||
      s.id == InstanceNamePrefix ++ short ||
      (hasPrefix s.name InstanceNamePrefix &&
       s.name.drop InstanceNamePrefix.length == InstanceNamePrefix ++ short))
      = some srv := by
    apply find?_eq_some_of_unique hmem
    · rw [hname]
      simp
    · intro b hb hpb
      rcases hdistinct b hb with h | h
      · exact h
      · simp only [Bool.or_eq_true, Bool.and_eq_true, beq_iff_eq] at hpb
        rcases hpb with (h1 | h1) | ⟨_, h1⟩
        · exact absurd h1 h.2.2.2.1
        · exact absurd h1 h.2.2.2.2.1
        · exact absurd h1 h.2.2.2.2.2.1
  refine ⟨?_, ?_, ?_, ?_, ?_, ?_⟩
  · unfold resolvedTerminateId terminateResolve
    rw [hshort]
    dsimp only
    rw [hlist]
    dsimp only
    rw [hfindName]
    rfl
  · unfold resolvedTerminateId terminateResolve
    rw [hasPrefix_append]
    dsimp only
    rw [hlist]
    dsimp only
    rw [hfindName]
    rfl
  · unfold resolvedTerminateId terminateResolve
    rw [hidpre]
    dsimp only
    rw [hlist]
    dsimp only
    rw [hfindIdName, hget]
    rfl
  · unfold resolvedConnectId connectResolve
    rw [hgetS]
    dsimp only
    rw [hlist]
    dsimp only
    rw [hfindConnS]
  · unfold resolvedConnectId connectResolve
    rw [hgetF]
    dsimp only
    rw [hlist]
    dsimp only
    rw [hfindConnF]
  · unfold resolvedConnectId connectResolve
    rw [hget]
    dsimp only
    rw [connectByIdCheck_of_prefixed (by rw [hname]; exact hasPrefix_append _ _)]

/-- Managed server for the C3 witness. -/
def srvM : Server where
  id := "77"
  name := "tins-foo"
  status := "ACTIVE"
  metadata := some [("tins", "true")]
  addresses := []

/-- Client for the C3 witness: `srvM` is the lone instance; direct fetch
succeeds only on its raw ID. -/
def cM : Client where
  findImage := .ok "img"
  findFlavor := .ok "flv"
  findNetwork := .ok "net"
  createKeypair := fun _ _ => .ok ()
  createServer := fun _ => .error "unused"
  rawServers := .ok [srvM]
  getServer := fun i => if i == "77" then .ok srvM else .error "404"
  deleteServer := fun _ => .ok ()
  delKeypair := fun _ => .ok ()
  generateKey := fun _ => .ok "pk"
  deleteLocalKey := fun _ => .ok ()
  poll := fun _ _ => .error "not polled"

/-- C3, witness: the theorem applied to `cM` and short name `"foo"`. -/
theorem C3_resolution_coherence_witness :
    resolvedTerminateId cM "foo" = some "77" ∧
    resolvedConnectId cM "77" = some "77" :=
  have h := C3_resolution_coherence cM "foo" "404" "404" srvM [srvM]
    (by decide) (by decide) (by rfl) (by decide) (by decide) (by rfl)
    (by rfl) (by rfl) (by decide)
    (by intro s hs; left; simp at hs; exact hs)
  ⟨h.1, h.2.2.2.2.2⟩

/-- C4: an instance that carries neither the managed metadata value nor
the name prefix, resolved by its raw provider ID, is rejected as not
found by the connect workflow (the by-ID fetch succeeds but fails the
managed check, and the managed list cannot match it), while the terminate
workflow accepts the same identifier and proceeds to attempt the instance
deletion. -/
theorem C4_unmanaged_by_id (c : Client) (srv : Server) (L : List Server)
    (hunman : isManaged srv = false)
    (hget : c.getServer srv.id = .ok srv)
    (hidpre : hasPrefix srv.id InstanceNamePrefix = false)
    (hlist : listInstances c = .ok L)
    (hnomatch : ∀ s ∈ L, s.name ≠ srv.id ∧ s.id ≠ srv.id ∧
        s.name.drop InstanceNamePrefix.length ≠ srv.id ∧
        s.name ≠ InstanceNamePrefix ++ srv.id) :
    connectResolve c srv.id = .error ("instance " ++ srv.id ++ " not found") ∧
    terminateResolve c srv.id =
      .ok (srv.id, trimPrefix srv.name InstanceNamePrefix, srv.name) ∧
    Action.deleteInstance srv.id ∈ (terminateCmd c srv.id).trace := by
  have hfnone : List.find? (fun s => s.name == InstanceNamePrefix ++ srv.id) L
      = none :=
    List.find?_eq_none.mpr (fun s hs => by
      intro hbeq
      rw [beq_iff_eq] at hbeq
      exact (hnomatch s hs).2.2.2 hbeq)
  have hcnone : List.find? (fun s =>
      s.name == srv.id || s.id == srv.id ||
      (hasPrefix s.name InstanceNamePrefix &&
       s.name.drop InstanceNamePrefix.length == srv.id)) L = none :=
    List.find?_eq_none.mpr (fun s hs => by
      obtain ⟨h1, h2, h3, _⟩ := hnomatch s hs
      intro hb
      simp only [Bool.or_eq_true, Bool.and_eq_true, beq_iff_eq] at hb
      rcases hb with (hh | hh) | ⟨_, hh⟩
      · exact h1 hh
      · exact h2 hh
      · exact h3 hh)
  have hres : terminateResolve c srv.id =
      .ok (srv.id, trimPrefix srv.name InstanceNamePrefix, srv.name) := by
    unfold terminateResolve
    rw [hidpre, if_neg Bool.false_ne_true, hlist]
    dsimp only
    rw [hfnone, hget]
  refine ⟨?_, hres, ?_⟩
  · unfold connectResolve
    rw [hget]
    dsimp only
    rw [connectByIdCheck_unmanaged hunman]
    dsimp only
    rw [hlist]
    dsimp only
    rw [hcnone]
  · unfold terminateCmd
    rw [hres]
    dsimp only
    cases hdel : c.deleteServer srv.id <;> simp

/-- Unmanaged server for the C4 witness. -/
def srvU : Server where
  id := "u-9"
  name := "other-vm"
  status := "ACTIVE"
  metadata := some [("role", "db")]
  addresses := []

/-- Client for the C4 witness: `srvU` exists remotely but is filtered out
of the managed list. -/
def cU : Client where
  findImage := .ok "img"
  findFlavor := .ok "flv"
  findNetwork := .ok "net"
  createKeypair := fun _ _ => .ok ()
  createServer := fun _ => .error "unused"
  rawServers := .ok [srvU]
  getServer := fun i => if i == "u-9" then .ok srvU else .error "404"
  deleteServer := fun _ => .ok ()
  delKeypair := fun _ => .ok ()
  generateKey := fun _ => .ok "pk"
  deleteLocalKey := fun _ => .ok ()
  poll := fun _ _ => .error "not polled"

/-- C4, witness: the theorem applied to `cU` and the raw ID `"u-9"`. -/
theorem C4_unmanaged_by_id_witness :
    connectResolve cU "u-9" = .error ("instance " ++ "u-9" ++ " not found") ∧
    Action.deleteInstance "u-9" ∈ (terminateCmd cU "u-9").trace :=
  have h := C4_unmanaged_by_id cU srvU []
    (by decide) (by rfl) (by decide) (by rfl)
    (by intro s hs; simp at hs)
  ⟨h.1, h.2.2⟩

end Tins
